import Mathlib

/-!
Verification of the weather-mcp repository (src/weather_server_free.py).

Shallow embedding conventions:
* Python floats are modelled as rationals (ℚ); the only arithmetic the code
  performs on them (comparison, min, max, sum, division by a constant) is exact.
* Python dicts with a fixed field layout are modelled as structures; a key that
  the code reads with `.get` is an `Option` field, a key the code indexes
  directly is a plain field.
* `datetime.fromtimestamp(t).isoformat()` is an injective rendering of the
  epoch value `t`; payload timestamps are therefore modelled by the epoch value
  itself (a rational).
* `datetime.fromtimestamp(t).date()` is modelled by the day index
  `epochDate t = t / 86400` (floor division): a deterministic derivation of a
  calendar date from an epoch timestamp, which is all the code relies on.
* `time.time()` is passed in explicitly as a parameter `now`; a single call of
  an orchestration function uses one time value.
* The network and the JSON decoding are an oracle parameter
  `net : Except String …`: `.ok` is a decoded upstream response body, `.error`
  is an HTTP/request failure (both `httpx` exception branches re-raise a plain
  `Exception`, modelled as `WErr.upstream`).
* The in-memory `cache` dict is an association list with Python-dict update
  semantics (overwrite in place, insert at the end); the in-place mutation of
  the stored payload performed by the stale-fallback branch (which writes
  through the alias `stale_data = cache[key]["data"]`) is modelled by
  returning the updated cache.
-/

namespace Weather

/-! ## Raw provider data for the current-weather endpoint -/

/-- The "main" sub-dict of a current-weather response; both fields are read
with `.get(..., 0)`. -/
structure MainData where
  temp : Option ℚ
  humidity : Option ℚ
  deriving DecidableEq

/-- The "rain" sub-dict: optional 1-hour and 3-hour precipitation fields. -/
structure RainData where
  oneH : Option ℚ
  threeH : Option ℚ
  deriving DecidableEq

/-- The "wind" sub-dict; "speed" is read with `.get("speed", 0)`. -/
structure WindData where
  speed : Option ℚ
  deriving DecidableEq

/-- One entry of the "weather" list of a current-weather response; the code
reads "description" with `.get("description", "unknown")`. -/
structure CondEntry where
  description : Option String
  deriving DecidableEq

/-- A raw (provider-shaped) current-weather response body.  Every field the
code reads with `data.get(...)` is optional. -/
structure RawCurrent where
  main : Option MainData
  rain : Option RainData
  wind : Option WindData
  weather : Option (List CondEntry)
  dt : Option ℤ
  deriving DecidableEq

/-! ## Normalized payloads -/

/-- The normalized current-weather payload produced by
`normalize_current_weather`.  `stale` is `Option Bool` because the "stale" key
is absent until the fallback path sets it. -/
structure CurrentPayload where
  temperature : ℚ
  humidity : ℚ
  rainfall : ℚ
  wind_speed : ℚ
  description : String
  provider : String
  cached : Bool
  stale : Option Bool
  timestamp : ℚ
  deriving DecidableEq

/-- Input to `normalize_current_weather`.  The code dispatches on
`"provider" in data and data.get("provider") == "openweather"`: a raw provider
response carries no provider tag, a previously normalized payload carries
`provider = "openweather"`. -/
inductive CWInput where
  | raw (d : RawCurrent)
  | normalized (n : CurrentPayload)
  deriving DecidableEq

/-- Rainfall extraction of `normalize_current_weather`:
`data["rain"]["1h"]` if present, else `data["rain"]["3h"] / 3`, else `0.0`. -/
def rawRainfall (d : RawCurrent) : ℚ :=
  match d.rain with
  | some r =>
    match r.oneH with
    | some q => q
    | none =>
      match r.threeH with
      | some q => q / 3
      | none => 0
  | none => 0

/-- Description extraction: `data.get("weather", [⟨default⟩])[0]` then
`.get("description", "unknown")`.  A present but empty "weather" list makes
the index `[0]` raise `IndexError`, modelled as `none`. -/
def rawDescription (d : RawCurrent) : Option String :=
  match d.weather with
  | none => some "unknown"
  | some [] => none
  | some (e :: _) => some (e.description.getD "unknown")

/-- Embedding of `normalize_current_weather(data, cached)`.  `now` is the
value of `time.time()` used when "dt" is absent.  The result is `none` exactly
when the raw input raises (empty "weather" list). -/
def normalize_current_weather : CWInput → Bool → ℚ → Option CurrentPayload
  | .normalized n, cached, _ => some { n with cached := cached }
  | .raw d, cached, now =>
    match rawDescription d with
    | none => none
    | some desc =>
      some
        { temperature := (match d.main with | some m => m.temp.getD 0 | none => 0)
          humidity := (match d.main with | some m => m.humidity.getD 0 | none => 0)
          rainfall := rawRainfall d
          wind_speed := (match d.wind with | some w => w.speed.getD 0 | none => 0)
          description := desc
          provider := "openweather"
          cached := cached
          stale := none
          timestamp := (match d.dt with | some t => (t : ℚ) | none => now) }

/-! ## Claims C7 and C10: current-weather normalization -/

/-- A raw input with every optional field absent. -/
def emptyRaw : RawCurrent :=
  { main := none, rain := none, wind := none, weather := none, dt := none }

/-- A raw input carrying a 3-hour precipitation value of 3.0 and no 1-hour
value. -/
def threeHourRaw : RawCurrent :=
  { emptyRaw with rain := some { oneH := none, threeH := some 3 } }

/-- C7: in `normalize_current_weather` (on a raw input that does not raise),
the output rainfall is the 1-hour precipitation field when the input carries
one, else the 3-hour precipitation field divided by 3 when present, else 0;
in particular a 3-hour value of 3.0 with no 1-hour value yields rainfall 1.0. -/
theorem C7_rainfall_derivation :
    (∀ (d : RawCurrent) (cached : Bool) (now : ℚ) (p : CurrentPayload),
      normalize_current_weather (.raw d) cached now = some p →
        (∀ r q, d.rain = some r → r.oneH = some q → p.rainfall = q) ∧
        (∀ r q, d.rain = some r → r.oneH = none → r.threeH = some q →
          p.rainfall = q / 3) ∧
        (∀ r, d.rain = some r → r.oneH = none → r.threeH = none →
          p.rainfall = 0) ∧
        (d.rain = none → p.rainfall = 0)) ∧
    (normalize_current_weather (.raw threeHourRaw) false 0).map
        CurrentPayload.rainfall = some 1 := by
  constructor
  · intro d cached now p hp
    have hrain : p.rainfall = rawRainfall d := by
      simp only [normalize_current_weather] at hp
      cases hdesc : rawDescription d with
      | none => rw [hdesc] at hp; cases hp
      | some s => rw [hdesc] at hp; cases hp; rfl
    refine ⟨?_, ?_, ?_, ?_⟩
    · intro r q hr h1; rw [hrain]; simp [rawRainfall, hr, h1]
    · intro r q hr h1 h3; rw [hrain]; simp [rawRainfall, hr, h1, h3]
    · intro r hr h1 h3; rw [hrain]; simp [rawRainfall, hr, h1, h3]
    · intro hr; rw [hrain]; simp [rawRainfall, hr]
  · simp [normalize_current_weather, threeHourRaw, emptyRaw, rawDescription,
      rawRainfall]

/-- Witness for C7 at a concrete input: the 3h = 3.0 sample. -/
theorem C7_rainfall_derivation_witness :
    ∃ p, normalize_current_weather (.raw threeHourRaw) false 0 = some p ∧
      p.rainfall = 1 := by
  refine ⟨_, rfl, ?_⟩
  have h := (C7_rainfall_derivation.1 threeHourRaw false 0 _ rfl).2.1
    { oneH := none, threeH := some 3 } 3 rfl rfl rfl
  rw [h]
  norm_num

/-- C10: `normalize_current_weather` is total on every input whose "weather"
key, if present, maps to a non-empty list; absent "main"/"wind"/"rain"/"dt"
fields default to temperature 0, humidity 0, wind_speed 0, rainfall 0.0 and
the current time as timestamp; an absent "weather" key yields description
"unknown"; and an input whose "weather" key maps to the empty list is not
handled (the extraction raises). -/
theorem C10_normalize_total_with_defaults :
    (∀ (d : RawCurrent) (cached : Bool) (now : ℚ), d.weather ≠ some [] →
      (normalize_current_weather (.raw d) cached now).isSome) ∧
    (∀ (n : CurrentPayload) (cached : Bool) (now : ℚ),
      (normalize_current_weather (.normalized n) cached now).isSome) ∧
    (∀ now : ℚ, normalize_current_weather (.raw emptyRaw) false now =
      some { temperature := 0, humidity := 0, rainfall := 0, wind_speed := 0,
             description := "unknown", provider := "openweather",
             cached := false, stale := none, timestamp := now }) ∧
    (∀ now : ℚ, normalize_current_weather
      (.raw { emptyRaw with weather := some [] }) false now = none) := by
  refine ⟨?_, ?_, ?_, ?_⟩
  · intro d cached now hw
    simp only [normalize_current_weather]
    cases hdesc : rawDescription d with
    | none =>
      exfalso
      unfold rawDescription at hdesc
      cases hwe : d.weather with
      | none => rw [hwe] at hdesc; cases hdesc
      | some l =>
        cases l with
        | nil => exact hw hwe
        | cons e es => rw [hwe] at hdesc; cases hdesc
    | some s => simp
  · intro n cached now; simp [normalize_current_weather]
  · intro now; rfl
  · intro now; rfl

/-- Witness for C10 at concrete inputs. -/
theorem C10_normalize_total_with_defaults_witness :
    (normalize_current_weather (.raw emptyRaw) true 7).isSome = true := by
  exact C10_normalize_total_with_defaults.1 emptyRaw true 7 (by
    simp [emptyRaw])

/-! ## Forecast provider data and normalization -/

/-- The "main" sub-dict of a 3-hour forecast sample; the code indexes "temp"
and "humidity" directly. -/
structure FMain where
  temp : ℚ
  humidity : ℚ
  deriving DecidableEq

/-- The "rain" sub-dict of a forecast sample; "3h" is tested with
a membership check before being read. -/
structure FRain where
  threeH : Option ℚ
  deriving DecidableEq

/-- One entry of a forecast sample's "weather" list; the code indexes
"description" directly. -/
structure FCondEntry where
  description : String
  deriving DecidableEq

/-- One 3-hour forecast sample of the provider's "list". -/
structure ForecastItem where
  dt : ℤ
  main : FMain
  rain : Option FRain
  weather : List FCondEntry
  deriving DecidableEq

/-- A raw forecast response body: the provider's "list" of 3-hour samples
(read with `data.get("list", [])`). -/
structure RawForecast where
  list : List ForecastItem
  deriving DecidableEq

/-- One normalized day of the forecast. -/
structure ForecastDay where
  date : ℤ
  temp_min : ℚ
  temp_max : ℚ
  humidity : ℤ
  rainfall : ℚ
  description : String
  deriving DecidableEq

/-- The normalized forecast payload. -/
structure ForecastPayload where
  forecast : List ForecastDay
  provider : String
  cached : Bool
  stale : Option Bool
  timestamp : ℚ
  deriving DecidableEq

/-- Calendar-date derivation `datetime.fromtimestamp(dt).date()`, modelled as
the day index of the epoch timestamp (floor division by 86400 seconds). -/
def epochDate (dt : ℤ) : ℤ := Int.fdiv dt 86400

/-- Rainfall of one forecast sample: `item["rain"]["3h"]` when the "rain" dict
is present and carries a "3h" key, else `0.0`. -/
def itemRain (it : ForecastItem) : ℚ :=
  match it.rain with
  | some r => r.threeH.getD 0
  | none => 0

/-- Description contribution of one forecast sample: the first weather entry's
text when `item.get("weather")` is a non-empty list, nothing otherwise. -/
def itemDesc (it : ForecastItem) : Option String :=
  match it.weather with
  | [] => none
  | e :: _ => some e.description

/-- Per-day accumulator built by the grouping loop of `normalize_forecast`. -/
structure DayData where
  temps : List ℚ
  humidity : List ℚ
  rainfall : List ℚ
  descriptions : List String
  deriving DecidableEq

/-- The fresh accumulator created when a date is first encountered. -/
def emptyDay : DayData :=
  { temps := [], humidity := [], rainfall := [], descriptions := [] }

/-- Body of the grouping loop: append the sample's temperature, humidity,
rainfall and (when present) description to the day's lists. -/
def addToDay (dd : DayData) (it : ForecastItem) : DayData :=
  { temps := dd.temps ++ [it.main.temp]
    humidity := dd.humidity ++ [it.main.humidity]
    rainfall := dd.rainfall ++ [itemRain it]
    descriptions := dd.descriptions ++
      (match itemDesc it with | some s => [s] | none => []) }

/-- Insertion into the `daily_data` dict: Python dicts update an existing key
in place and append a new key at the end, preserving insertion order. -/
def insertSample : List (ℤ × DayData) → ForecastItem → List (ℤ × DayData)
  | [], it => [(epochDate it.dt, addToDay emptyDay it)]
  | (d, dd) :: rest, it =>
    if d = epochDate it.dt then (d, addToDay dd it) :: rest
    else (d, dd) :: insertSample rest it

/-- The grouping loop of `normalize_forecast` over the (already truncated)
sample list. -/
def groupByDay (items : List ForecastItem) : List (ℤ × DayData) :=
  items.foldl insertSample []

/-- Python `int(...)` conversion on an exact rational: truncation toward
zero. -/
def pyTrunc (q : ℚ) : ℤ := if 0 ≤ q then Rat.floor q else -Rat.floor (-q)

/-- Sum of a list of rationals (Python `sum`). -/
def qsum (l : List ℚ) : ℚ := l.foldl (fun a b => a + b) 0

/-- Python `min` over a non-empty list (the grouping never yields an empty
bucket; on `[]` Python raises, here we default to 0). -/
def listMin : List ℚ → ℚ
  | [] => 0
  | x :: xs => xs.foldl min x

/-- Python `max` over a non-empty list. -/
def listMax : List ℚ → ℚ
  | [] => 0
  | x :: xs => xs.foldl max x

/-- The daily-summary construction of `normalize_forecast`. -/
def summarize : ℤ × DayData → ForecastDay
  | (date, dd) =>
    { date := date
      temp_min := listMin dd.temps
      temp_max := listMax dd.temps
      humidity := pyTrunc (qsum dd.humidity / (dd.humidity.length : ℚ))
      rainfall := qsum dd.rainfall
      description := dd.descriptions.headD "unknown" }

/-- Embedding of `normalize_forecast(data, days, cached)`: truncate to the
first `days * 8` samples, group by calendar date, summarize the first `days`
dates. `now` is `datetime.now()` used for the payload timestamp. -/
def normalize_forecast (data : RawForecast) (days : ℤ) (cached : Bool)
    (now : ℚ) : ForecastPayload :=
  { forecast :=
      ((groupByDay (data.list.take (days * 8).toNat)).take days.toNat).map
        summarize
    provider := "openweather"
    cached := cached
    stale := none
    timestamp := now }

/-! ## Cache and orchestration -/

/-- A payload stored in the shared cache dict: either a normalized
current-weather payload or a normalized forecast payload. -/
inductive Payload where
  | current (p : CurrentPayload)
  | forecast (p : ForecastPayload)
  deriving DecidableEq

/-- Setting the "cached" key of a payload dict. -/
def Payload.setCached : Payload → Bool → Payload
  | .current p, b => .current { p with cached := b }
  | .forecast p, b => .forecast { p with cached := b }

/-- The two writes of the fallback branch: `cached = True` and
`stale = True` on the payload dict. -/
def Payload.setStale : Payload → Payload
  | .current p => .current { p with cached := true, stale := some true }
  | .forecast p => .forecast { p with cached := true, stale := some true }

/-- A cache entry as built by `set_cache`: the payload and its capture time. -/
structure CacheEntry where
  data : Payload
  timestamp : ℚ
  deriving DecidableEq

/-- The in-memory cache dict, as an insertion-ordered association list. -/
abbrev Cache := List (String × CacheEntry)

/-- First-match association-list find (`key in cache` / `cache[key]`). -/
def assocFind : Cache → String → Option CacheEntry
  | [], _ => none
  | (k, v) :: rest, key => if k = key then some v else assocFind rest key

/-- Python-dict assignment `cache[key] = e`: overwrite the existing slot in
place, else append at the end. -/
def assocInsert : Cache → String → CacheEntry → Cache
  | [], key, e => [(key, e)]
  | (k, v) :: rest, key, e =>
    if k = key then (key, e) :: rest else (k, v) :: assocInsert rest key e

/-- Embedding of `get_cache_key(lat, lon, endpoint)`. -/
def get_cache_key (lat lon : ℚ) (endpoint : String) : String :=
  toString lat ++ "|" ++ toString lon ++ "|" ++ endpoint

/-- Embedding of `get_from_cache(key)`: the stored payload when the entry
exists and is younger than the TTL, a miss otherwise; never mutates. -/
def get_from_cache (c : Cache) (ttl now : ℚ) (key : String) : Option Payload :=
  match assocFind c key with
  | some e => if now - e.timestamp < ttl then some e.data else none
  | none => none

/-- Embedding of `set_cache(key, data)`. -/
def set_cache (c : Cache) (now : ℚ) (key : String) (d : Payload) : Cache :=
  assocInsert c key { data := d, timestamp := now }

/-- Error kinds raised inside the orchestration try-block; all of them are
Python `Exception`s and are caught by the fallback handler. -/
inductive WErr where
  | config
  | upstream (msg : String)
  | indexErr
  | validation
  deriving DecidableEq

/-- Python truthiness of the API-key value: `not OPENWEATHER_API_KEY` is true
for an unset variable and for the empty string. -/
def keyMissing : Option String → Bool
  | none => true
  | some s => s.isEmpty

/-- Embedding of `fetch_current_weather`: a missing API key raises
`ValueError` before any network activity; otherwise the network oracle's
failure is re-raised as a plain upstream `Exception`. -/
def fetch_current_weather (apiKey : Option String)
    (net : Except String CWInput) : Except WErr CWInput :=
  if keyMissing apiKey then .error .config
  else
    match net with
    | .ok d => .ok d
    | .error m => .error (.upstream m)

/-- Embedding of `fetch_forecast_data` (same structure as
`fetch_current_weather`). -/
def fetch_forecast_data (apiKey : Option String)
    (net : Except String RawForecast) : Except WErr RawForecast :=
  if keyMissing apiKey then .error .config
  else
    match net with
    | .ok d => .ok d
    | .error m => .error (.upstream m)

/-- The try-block of `get_weather`: fetch then normalize (a raised
`IndexError` in normalization is also an `Exception` caught by the
handler). -/
def attemptCurrent (apiKey : Option String) (now : ℚ)
    (net : Except String CWInput) : Except WErr Payload :=
  match fetch_current_weather apiKey net with
  | .error e => .error e
  | .ok raw =>
    match normalize_current_weather raw false now with
    | none => .error .indexErr
    | some p => .ok (.current p)

/-- Embedding of the tool `get_weather(lat, lon)`.  Returns the call's result
together with the cache as left behind by the call.  The fallback branch
writes the `cached`/`stale` flags through the alias into the stored entry
(timestamp untouched), which the returned cache reflects. -/
def get_weather (apiKey : Option String) (ttl : ℚ) (c : Cache) (now : ℚ)
    (lat lon : ℚ) (net : Except String CWInput) :
    Except WErr Payload × Cache :=
  match get_from_cache c ttl now (get_cache_key lat lon "current") with
  | some d => (.ok (d.setCached true), c)
  | none =>
    match attemptCurrent apiKey now net with
    | .ok p => (.ok p, set_cache c now (get_cache_key lat lon "current") p)
    | .error e =>
      match assocFind c (get_cache_key lat lon "current") with
      | some entry =>
        (.ok entry.data.setStale,
         assocInsert c (get_cache_key lat lon "current")
           { entry with data := entry.data.setStale })
      | none => (.error e, c)

/-- The try-block of `get_forecast`: fetch then normalize
(`normalize_forecast` is total). -/
def attemptForecast (apiKey : Option String) (days : ℤ) (now : ℚ)
    (net : Except String RawForecast) : Except WErr Payload :=
  match fetch_forecast_data apiKey net with
  | .error e => .error e
  | .ok raw => .ok (.forecast (normalize_forecast raw days false now))

/-- Embedding of the tool `get_forecast(lat, lon, days)`: the `days` range
check runs before any cache or fetch activity. -/
def get_forecast (apiKey : Option String) (ttl : ℚ) (c : Cache) (now : ℚ)
    (lat lon : ℚ) (days : ℤ) (net : Except String RawForecast) :
    Except WErr Payload × Cache :=
  if days < 1 ∨ 5 < days then (.error .validation, c)
  else
    match get_from_cache c ttl now
        (get_cache_key lat lon ("forecast_" ++ toString days)) with
    | some d => (.ok (d.setCached true), c)
    | none =>
      match attemptForecast apiKey days now net with
      | .ok p =>
        (.ok p,
         set_cache c now (get_cache_key lat lon ("forecast_" ++ toString days))
           p)
      | .error e =>
        match assocFind c
            (get_cache_key lat lon ("forecast_" ++ toString days)) with
        | some entry =>
          (.ok entry.data.setStale,
           assocInsert c (get_cache_key lat lon ("forecast_" ++ toString days))
             { entry with data := entry.data.setStale })
        | none => (.error e, c)

/-! ## Association-list lemmas -/

/-- Find after dict assignment: the assigned key maps to the new entry, every
other key is untouched. -/
theorem assocFind_insert (c : Cache) (key k : String) (e : CacheEntry) :
    assocFind (assocInsert c key e) k =
      if key = k then some e else assocFind c k := by
  induction c with
  | nil => simp [assocInsert, assocFind]
  | cons kv rest ih =>
    obtain ⟨k', v⟩ := kv
    by_cases h1 : k' = key
    · subst h1
      by_cases h2 : k' = k
      · subst h2; simp [assocInsert, assocFind]
      · simp [assocInsert, assocFind, h2]
    · by_cases h2 : k' = k
      · subst h2
        have : ¬ key = k' := fun h => h1 h.symm
        simp [assocInsert, assocFind, h1, this]
      · simp [assocInsert, assocFind, h1, h2, ih]

/-- Find after dict assignment at the assigned key itself. -/
theorem assocFind_insert_self (c : Cache) (key : String) (e : CacheEntry) :
    assocFind (assocInsert c key e) key = some e := by
  rw [assocFind_insert]; simp

/-! ## Error-shape lemmas for the fetch layer -/

/-- Errors raised by `fetch_current_weather` are a configuration error or an
upstream error, never a validation error. -/
theorem fetch_current_weather_error_shape (apiKey : Option String)
    (net : Except String CWInput) (e : WErr)
    (h : fetch_current_weather apiKey net = .error e) :
    e = .config ∨ ∃ m, e = .upstream m := by
  unfold fetch_current_weather at h
  split at h
  · cases h; exact Or.inl rfl
  · cases net with
    | ok d => cases h
    | error m => cases h; exact Or.inr ⟨m, rfl⟩

/-- Errors raised by `fetch_forecast_data` are a configuration error or an
upstream error, never a validation error. -/
theorem fetch_forecast_data_error_shape (apiKey : Option String)
    (net : Except String RawForecast) (e : WErr)
    (h : fetch_forecast_data apiKey net = .error e) :
    e = .config ∨ ∃ m, e = .upstream m := by
  unfold fetch_forecast_data at h
  split at h
  · cases h; exact Or.inl rfl
  · cases net with
    | ok d => cases h
    | error m => cases h; exact Or.inr ⟨m, rfl⟩

/-- Errors escaping the forecast try-block are exactly the fetch errors. -/
theorem attemptForecast_error_shape (apiKey : Option String) (days : ℤ)
    (now : ℚ) (net : Except String RawForecast) (e : WErr)
    (h : attemptForecast apiKey days now net = .error e) :
    e = .config ∨ ∃ m, e = .upstream m := by
  unfold attemptForecast at h
  cases hf : fetch_forecast_data apiKey net with
  | ok d => rw [hf] at h; cases h
  | error e' =>
    rw [hf] at h
    cases h
    exact fetch_forecast_data_error_shape apiKey net e hf

/-! ## Claim C8: days validation in get_forecast -/

/-- C8: a days value outside [1,5] makes `get_forecast` fail with the
validation error, with the cache unchanged and independently of the API key,
the network and the clock (so before any cache lookup, store or fetch); a
days value inside [1,5] passes the validation (the call never produces the
validation error). -/
theorem C8_days_validation :
    (∀ (apiKey : Option String) (ttl : ℚ) (c : Cache) (now lat lon : ℚ)
        (days : ℤ) (net : Except String RawForecast),
      (days < 1 ∨ 5 < days) →
        get_forecast apiKey ttl c now lat lon days net =
          (.error .validation, c)) ∧
    (∀ (apiKey : Option String) (ttl : ℚ) (c : Cache) (now lat lon : ℚ)
        (days : ℤ) (net : Except String RawForecast),
      1 ≤ days → days ≤ 5 →
        (get_forecast apiKey ttl c now lat lon days net).1 ≠
          .error .validation) := by
  constructor
  · intro apiKey ttl c now lat lon days net h
    unfold get_forecast
    rw [if_pos h]
  · intro apiKey ttl c now lat lon days net h1 h5
    unfold get_forecast
    rw [if_neg (by omega)]
    cases hl : get_from_cache c ttl now
        (get_cache_key lat lon ("forecast_" ++ toString days)) with
    | some d => simp
    | none =>
      simp only []
      cases ha : attemptForecast apiKey days now net with
      | ok p => simp
      | error e =>
        cases hf : assocFind c
            (get_cache_key lat lon ("forecast_" ++ toString days)) with
        | some entry => simp
        | none =>
          simp only []
          intro hcontr
          have he : e = .validation := by
            injection hcontr
          rcases attemptForecast_error_shape apiKey days now net e ha with
            h | ⟨m, h⟩ <;> subst he <;> cases h

/-- Witness for C8 at days = 0 (rejected) and days = 3 (accepted). -/
theorem C8_days_validation_witness :
    get_forecast (some "k") 600 [] 0 0 0 0 (.error "down") =
      (.error .validation, []) ∧
    (get_forecast (some "k") 600 [] 0 0 0 3 (.error "down")).1 ≠
      .error .validation := by
  constructor
  · exact C8_days_validation.1 (some "k") 600 [] 0 0 0 0 (.error "down")
      (Or.inl (by norm_num))
  · exact C8_days_validation.2 (some "k") 600 [] 0 0 0 3 (.error "down")
      (by norm_num) (by norm_num)

/-! ## Claim C2: missing API key versus the cache fallback -/

/-- A concrete normalized current-weather payload used in counterexamples. -/
def basePayload : CurrentPayload :=
  { temperature := 25, humidity := 60, rainfall := 0, wind_speed := 3,
    description := "clear sky", provider := "openweather", cached := false,
    stale := none, timestamp := 0 }

/-- A concrete cache entry captured at time 0. -/
def cexEntry : CacheEntry := { data := .current basePayload, timestamp := 0 }

/-- A concrete cache holding one (expired at `now = 1000`, `ttl = 600`) entry
under the current-weather key of coordinates (0, 0). -/
def cexCache : Cache := [(get_cache_key 0 0 "current", cexEntry)]

/-- C2 counterexample: with the API key unset, an expired cache entry present
and the TTL lookup missing, `get_weather` does not fail with the
configuration error — the handler catches the `ValueError` and returns the
stale entry.  (The claim asserts the call fails even when a cache entry
exists.) -/
theorem C2_counterexample :
    keyMissing none = true ∧
    (get_weather none 600 cexCache 1000 0 0 (.error "down")).1 =
      .ok (Payload.current
        { basePayload with cached := true, stale := some true }) ∧
    (get_weather none 600 cexCache 1000 0 0 (.error "down")).1 ≠
      .error .config := by
  have hfind : assocFind cexCache (get_cache_key 0 0 "current") =
      some cexEntry := by
    simp [cexCache, assocFind]
  have hmiss : get_from_cache cexCache 600 1000 (get_cache_key 0 0 "current") =
      none := by
    unfold get_from_cache
    rw [hfind]
    have hno : ¬ ((1000 : ℚ) - cexEntry.timestamp < 600) := by
      simp [cexEntry]
      norm_num
    show (if (1000 : ℚ) - cexEntry.timestamp < 600 then some cexEntry.data
      else none) = none
    rw [if_neg hno]
  have hmain : get_weather none 600 cexCache 1000 0 0 (.error "down") =
      (.ok (Payload.current
        { basePayload with cached := true, stale := some true }),
       assocInsert cexCache (get_cache_key 0 0 "current")
         { cexEntry with data := cexEntry.data.setStale }) := by
    unfold get_weather
    rw [hmiss]
    rw [show attemptCurrent none 1000 (.error "down") = .error .config from
      rfl]
    rw [hfind]
    rfl
  refine ⟨rfl, ?_, ?_⟩
  · rw [hmain]
  · rw [hmain]
    intro h
    cases h

/-- C2 amended: the missing-key `ValueError` is raised before any network
call (the call's outcome does not depend on the network oracle), and when the
TTL lookup misses it propagates exactly when no cache entry exists for the
key; when an entry exists it is converted into a stale-cache response like
any other fetch failure.  Both operations behave alike (forecast shown for a
valid days value). -/
theorem C2_config_error_amended :
    (∀ (apiKey : Option String) (ttl : ℚ) (c : Cache) (now lat lon : ℚ)
        (net net' : Except String CWInput),
      keyMissing apiKey = true →
        get_weather apiKey ttl c now lat lon net =
          get_weather apiKey ttl c now lat lon net') ∧
    (∀ (apiKey : Option String) (ttl : ℚ) (c : Cache) (now lat lon : ℚ)
        (net : Except String CWInput),
      keyMissing apiKey = true →
      get_from_cache c ttl now (get_cache_key lat lon "current") = none →
      assocFind c (get_cache_key lat lon "current") = none →
        get_weather apiKey ttl c now lat lon net = (.error .config, c)) ∧
    (∀ (apiKey : Option String) (ttl : ℚ) (c : Cache) (now lat lon : ℚ)
        (net : Except String CWInput) (entry : CacheEntry),
      keyMissing apiKey = true →
      get_from_cache c ttl now (get_cache_key lat lon "current") = none →
      assocFind c (get_cache_key lat lon "current") = some entry →
        get_weather apiKey ttl c now lat lon net =
          (.ok entry.data.setStale,
           assocInsert c (get_cache_key lat lon "current")
             { entry with data := entry.data.setStale })) ∧
    (∀ (apiKey : Option String) (ttl : ℚ) (c : Cache) (now lat lon : ℚ)
        (days : ℤ) (net : Except String RawForecast),
      1 ≤ days → days ≤ 5 →
      keyMissing apiKey = true →
      get_from_cache c ttl now
        (get_cache_key lat lon ("forecast_" ++ toString days)) = none →
      assocFind c (get_cache_key lat lon ("forecast_" ++ toString days)) =
        none →
        get_forecast apiKey ttl c now lat lon days net =
          (.error .config, c)) := by
  have hcur : ∀ (apiKey : Option String) (now : ℚ)
      (net : Except String CWInput), keyMissing apiKey = true →
      attemptCurrent apiKey now net = .error .config := by
    intro apiKey now net hk
    unfold attemptCurrent fetch_current_weather
    rw [if_pos hk]
  have hfor : ∀ (apiKey : Option String) (days : ℤ) (now : ℚ)
      (net : Except String RawForecast), keyMissing apiKey = true →
      attemptForecast apiKey days now net = .error .config := by
    intro apiKey days now net hk
    unfold attemptForecast fetch_forecast_data
    rw [if_pos hk]
  refine ⟨?_, ?_, ?_, ?_⟩
  · intro apiKey ttl c now lat lon net net' hk
    unfold get_weather
    cases hl : get_from_cache c ttl now (get_cache_key lat lon "current") with
    | some d => rfl
    | none => rw [hcur apiKey now net hk, hcur apiKey now net' hk]
  · intro apiKey ttl c now lat lon net hk hmiss hfind
    unfold get_weather
    rw [hmiss, hcur apiKey now net hk, hfind]
  · intro apiKey ttl c now lat lon net entry hk hmiss hfind
    unfold get_weather
    rw [hmiss, hcur apiKey now net hk, hfind]
  · intro apiKey ttl c now lat lon days net h1 h5 hk hmiss hfind
    unfold get_forecast
    rw [if_neg (by omega), hmiss, hfor apiKey days now net hk, hfind]

/-- Witness for the amended C2 at a concrete empty cache. -/
theorem C2_config_error_amended_witness :
    get_weather none 600 [] 1000 0 0 (.error "down") = (.error .config, []) :=
  C2_config_error_amended.2.1 none 600 [] 1000 0 0 (.error "down") rfl rfl rfl

/-! ## Claim C6: TTL lookup and the second-call-within-TTL property -/

/-- Unfolding lemma for `get_from_cache` when the entry exists. -/
theorem get_from_cache_eq_some (c : Cache) (ttl now : ℚ) (key : String)
    (e : CacheEntry) (hf : assocFind c key = some e) :
    get_from_cache c ttl now key =
      if now - e.timestamp < ttl then some e.data else none := by
  unfold get_from_cache
  rw [hf]

/-- Unfolding lemma for `get_from_cache` when no entry exists. -/
theorem get_from_cache_eq_none (c : Cache) (ttl now : ℚ) (key : String)
    (hf : assocFind c key = none) :
    get_from_cache c ttl now key = none := by
  unfold get_from_cache
  rw [hf]

/-- C6: `get_from_cache` returns the stored payload exactly when an entry
exists whose age is strictly below the TTL; an older entry signals a miss
(and, the lookup being a pure read, remains stored); after a first
`get_weather` call that misses and fetches successfully, a second call within
the TTL performs no upstream fetch (any API key and network oracle give the
same result) and returns the stored payload unchanged except for the cached
flag; and the same holds for `get_forecast` (valid days): a fresh hit returns
the stored payload with only the cached flag set, the cache and network
untouched, and a successful first call followed by a call within the TTL
replays the stored payload. -/
theorem C6_ttl_lookup_and_second_call :
    (∀ (c : Cache) (ttl now : ℚ) (key : String) (d : Payload),
      get_from_cache c ttl now key = some d ↔
        ∃ e, assocFind c key = some e ∧ now - e.timestamp < ttl ∧
          d = e.data) ∧
    (∀ (c : Cache) (ttl now : ℚ) (key : String) (e : CacheEntry),
      assocFind c key = some e → ¬ (now - e.timestamp < ttl) →
        get_from_cache c ttl now key = none ∧ assocFind c key = some e) ∧
    (∀ (apiKey apiKey' : Option String) (ttl : ℚ) (c : Cache)
        (now now' lat lon : ℚ) (net net' : Except String CWInput)
        (p : Payload),
      get_from_cache c ttl now (get_cache_key lat lon "current") = none →
      attemptCurrent apiKey now net = .ok p →
      now' - now < ttl →
        get_weather apiKey ttl c now lat lon net =
          (.ok p, set_cache c now (get_cache_key lat lon "current") p) ∧
        get_weather apiKey' ttl
            (set_cache c now (get_cache_key lat lon "current") p) now'
            lat lon net' =
          (.ok (p.setCached true),
           set_cache c now (get_cache_key lat lon "current") p)) ∧
    (∀ (apiKey : Option String) (ttl : ℚ) (c : Cache) (now lat lon : ℚ)
        (days : ℤ) (net : Except String RawForecast) (d : Payload),
      1 ≤ days → days ≤ 5 →
      get_from_cache c ttl now
        (get_cache_key lat lon ("forecast_" ++ toString days)) = some d →
        get_forecast apiKey ttl c now lat lon days net =
          (.ok (d.setCached true), c)) ∧
    (∀ (apiKey apiKey' : Option String) (ttl : ℚ) (c : Cache)
        (now now' lat lon : ℚ) (days : ℤ)
        (net net' : Except String RawForecast) (p : Payload),
      1 ≤ days → days ≤ 5 →
      get_from_cache c ttl now
        (get_cache_key lat lon ("forecast_" ++ toString days)) = none →
      attemptForecast apiKey days now net = .ok p →
      now' - now < ttl →
        get_forecast apiKey ttl c now lat lon days net =
          (.ok p,
           set_cache c now
             (get_cache_key lat lon ("forecast_" ++ toString days)) p) ∧
        get_forecast apiKey' ttl
            (set_cache c now
              (get_cache_key lat lon ("forecast_" ++ toString days)) p)
            now' lat lon days net' =
          (.ok (p.setCached true),
           set_cache c now
             (get_cache_key lat lon ("forecast_" ++ toString days)) p)) := by
  refine ⟨?_, ?_, ?_, ?_, ?_⟩
  · intro c ttl now key d
    cases hf : assocFind c key with
    | none =>
      rw [get_from_cache_eq_none c ttl now key hf]
      simp
    | some e =>
      rw [get_from_cache_eq_some c ttl now key e hf]
      by_cases hage : now - e.timestamp < ttl
      · rw [if_pos hage]
        constructor
        · intro h
          exact ⟨e, rfl, hage, (Option.some.inj h).symm⟩
        · rintro ⟨e', he', hage', rfl⟩
          cases Option.some.inj he'
          rfl
      · rw [if_neg hage]
        constructor
        · intro h; cases h
        · rintro ⟨e', he', hage', rfl⟩
          cases Option.some.inj he'
          exact absurd hage' hage
  · intro c ttl now key e hf hage
    refine ⟨?_, hf⟩
    rw [get_from_cache_eq_some c ttl now key e hf, if_neg hage]
  · intro apiKey apiKey' ttl c now now' lat lon net net' p hmiss hatt hfresh
    have hfirst : get_weather apiKey ttl c now lat lon net =
        (.ok p, set_cache c now (get_cache_key lat lon "current") p) := by
      unfold get_weather
      rw [hmiss, hatt]
    refine ⟨hfirst, ?_⟩
    have hfind : assocFind
        (set_cache c now (get_cache_key lat lon "current") p)
        (get_cache_key lat lon "current") =
        some { data := p, timestamp := now } := by
      unfold set_cache
      exact assocFind_insert_self c (get_cache_key lat lon "current") _
    have hhit : get_from_cache
        (set_cache c now (get_cache_key lat lon "current") p) ttl now'
        (get_cache_key lat lon "current") = some p := by
      rw [get_from_cache_eq_some _ _ _ _ _ hfind]
      show (if now' - now < ttl then some p else none) = some p
      rw [if_pos hfresh]
    unfold get_weather
    rw [hhit]
  · intro apiKey ttl c now lat lon days net d h1 h5 hhit
    unfold get_forecast
    rw [if_neg (by omega), hhit]
  · intro apiKey apiKey' ttl c now now' lat lon days net net' p h1 h5
      hmiss hatt hfresh
    have hfirst : get_forecast apiKey ttl c now lat lon days net =
        (.ok p,
         set_cache c now
           (get_cache_key lat lon ("forecast_" ++ toString days)) p) := by
      unfold get_forecast
      rw [if_neg (by omega), hmiss, hatt]
    refine ⟨hfirst, ?_⟩
    have hfind : assocFind
        (set_cache c now
          (get_cache_key lat lon ("forecast_" ++ toString days)) p)
        (get_cache_key lat lon ("forecast_" ++ toString days)) =
        some { data := p, timestamp := now } := by
      unfold set_cache
      exact assocFind_insert_self c _ _
    have hhit : get_from_cache
        (set_cache c now
          (get_cache_key lat lon ("forecast_" ++ toString days)) p) ttl now'
        (get_cache_key lat lon ("forecast_" ++ toString days)) = some p := by
      rw [get_from_cache_eq_some _ _ _ _ _ hfind]
      show (if now' - now < ttl then some p else none) = some p
      rw [if_pos hfresh]
    unfold get_forecast
    rw [if_neg (by omega), hhit]

/-- Witness for C6: for each operation, a concrete first call stores the
payload and a second call 10 seconds later returns it from the cache with
`cached = true`, whatever the API key and network oracle. -/
theorem C6_ttl_lookup_and_second_call_witness :
    (get_forecast (some "k") 600 [] 0 0 0 3 (.ok { list := [] }) =
      (.ok (.forecast (normalize_forecast { list := [] } 3 false 0)),
       set_cache [] 0 (get_cache_key 0 0 ("forecast_" ++ toString (3 : ℤ)))
         (.forecast (normalize_forecast { list := [] } 3 false 0))) ∧
     get_forecast none 600
        (set_cache [] 0 (get_cache_key 0 0 ("forecast_" ++ toString (3 : ℤ)))
          (.forecast (normalize_forecast { list := [] } 3 false 0))) 10 0 0 3
        (.error "down") =
      (.ok ((Payload.forecast (normalize_forecast { list := [] } 3 false 0)).setCached
          true),
       set_cache [] 0 (get_cache_key 0 0 ("forecast_" ++ toString (3 : ℤ)))
         (.forecast (normalize_forecast { list := [] } 3 false 0)))) ∧
    get_weather (some "k") 600 [] 0 0 0 (.ok (.raw emptyRaw)) =
      (.ok (.current { temperature := 0, humidity := 0, rainfall := 0,
                       wind_speed := 0, description := "unknown",
                       provider := "openweather", cached := false,
                       stale := none, timestamp := 0 }),
       set_cache [] 0 (get_cache_key 0 0 "current")
         (.current { temperature := 0, humidity := 0, rainfall := 0,
                     wind_speed := 0, description := "unknown",
                     provider := "openweather", cached := false,
                     stale := none, timestamp := 0 })) ∧
    get_weather none 600
        (set_cache [] 0 (get_cache_key 0 0 "current")
          (.current { temperature := 0, humidity := 0, rainfall := 0,
                      wind_speed := 0, description := "unknown",
                      provider := "openweather", cached := false,
                      stale := none, timestamp := 0 })) 10 0 0
        (.error "down") =
      (.ok (.current { temperature := 0, humidity := 0, rainfall := 0,
                       wind_speed := 0, description := "unknown",
                       provider := "openweather", cached := true,
                       stale := none, timestamp := 0 }),
       set_cache [] 0 (get_cache_key 0 0 "current")
         (.current { temperature := 0, humidity := 0, rainfall := 0,
                     wind_speed := 0, description := "unknown",
                     provider := "openweather", cached := false,
                     stale := none, timestamp := 0 })) := by
  have h := C6_ttl_lookup_and_second_call.2.2.1 (some "k") none 600 [] 0 10
    0 0 (.ok (.raw emptyRaw)) (.error "down")
    (.current { temperature := 0, humidity := 0, rainfall := 0,
                wind_speed := 0, description := "unknown",
                provider := "openweather", cached := false,
                stale := none, timestamp := 0 })
    rfl rfl (by norm_num)
  have hf := C6_ttl_lookup_and_second_call.2.2.2.2 (some "k") none 600 [] 0
    10 0 0 3 (.ok { list := [] }) (.error "down")
    (.forecast (normalize_forecast { list := [] } 3 false 0))
    (by norm_num) (by norm_num) rfl rfl (by norm_num)
  exact ⟨hf, h⟩

/-! ## Claim C1: stale-cache fallback on fetch failure -/

/-- Lifting a fetch failure through the current-weather try-block. -/
theorem attemptCurrent_of_fetch_error (apiKey : Option String) (now : ℚ)
    (net : Except String CWInput) (e : WErr)
    (hf : fetch_current_weather apiKey net = .error e) :
    attemptCurrent apiKey now net = .error e := by
  unfold attemptCurrent
  rw [hf]

/-- Lifting a fetch failure through the forecast try-block. -/
theorem attemptForecast_of_fetch_error (apiKey : Option String) (days : ℤ)
    (now : ℚ) (net : Except String RawForecast) (e : WErr)
    (hf : fetch_forecast_data apiKey net = .error e) :
    attemptForecast apiKey days now net = .error e := by
  unfold attemptForecast
  rw [hf]

/-- C1: when the TTL lookup misses and the upstream fetch fails, each
operation returns the existing cache entry's payload with
`cached = true, stale = true` if any entry (fresh or expired) exists for the
key, and propagates the failure otherwise. -/
theorem C1_stale_fallback_policy :
    (∀ (apiKey : Option String) (ttl : ℚ) (c : Cache) (now lat lon : ℚ)
        (net : Except String CWInput) (e : WErr),
      get_from_cache c ttl now (get_cache_key lat lon "current") = none →
      fetch_current_weather apiKey net = .error e →
        (∀ entry, assocFind c (get_cache_key lat lon "current") =
            some entry →
          get_weather apiKey ttl c now lat lon net =
            (.ok entry.data.setStale,
             assocInsert c (get_cache_key lat lon "current")
               { data := entry.data.setStale,
                 timestamp := entry.timestamp })) ∧
        (assocFind c (get_cache_key lat lon "current") = none →
          get_weather apiKey ttl c now lat lon net = (.error e, c))) ∧
    (∀ (apiKey : Option String) (ttl : ℚ) (c : Cache) (now lat lon : ℚ)
        (days : ℤ) (net : Except String RawForecast) (e : WErr),
      1 ≤ days → days ≤ 5 →
      get_from_cache c ttl now
        (get_cache_key lat lon ("forecast_" ++ toString days)) = none →
      fetch_forecast_data apiKey net = .error e →
        (∀ entry, assocFind c
            (get_cache_key lat lon ("forecast_" ++ toString days)) =
            some entry →
          get_forecast apiKey ttl c now lat lon days net =
            (.ok entry.data.setStale,
             assocInsert c (get_cache_key lat lon ("forecast_" ++
                 toString days))
               { data := entry.data.setStale,
                 timestamp := entry.timestamp })) ∧
        (assocFind c (get_cache_key lat lon ("forecast_" ++ toString days)) =
            none →
          get_forecast apiKey ttl c now lat lon days net =
            (.error e, c))) := by
  constructor
  · intro apiKey ttl c now lat lon net e hmiss hf
    have hatt := attemptCurrent_of_fetch_error apiKey now net e hf
    constructor
    · intro entry hfind
      unfold get_weather
      rw [hmiss, hatt, hfind]
    · intro hfind
      unfold get_weather
      rw [hmiss, hatt, hfind]
  · intro apiKey ttl c now lat lon days net e h1 h5 hmiss hf
    have hatt := attemptForecast_of_fetch_error apiKey days now net e hf
    constructor
    · intro entry hfind
      unfold get_forecast
      rw [if_neg (by omega), hmiss, hatt, hfind]
    · intro hfind
      unfold get_forecast
      rw [if_neg (by omega), hmiss, hatt, hfind]

/-- Witness for C1: with an expired concrete entry and a failing fetch, the
entry comes back with both flags set; the entry's timestamp is kept. -/
theorem C1_stale_fallback_policy_witness :
    get_weather (some "k") 600 cexCache 1000 0 0 (.error "down") =
      (.ok cexEntry.data.setStale,
       assocInsert cexCache (get_cache_key 0 0 "current")
         { data := cexEntry.data.setStale,
           timestamp := cexEntry.timestamp }) := by
  have hfind : assocFind cexCache (get_cache_key 0 0 "current") =
      some cexEntry := by
    simp [cexCache, assocFind]
  have hmiss : get_from_cache cexCache 600 1000 (get_cache_key 0 0 "current") =
      none := by
    rw [get_from_cache_eq_some _ _ _ _ _ hfind]
    rw [if_neg (show ¬ ((1000 : ℚ) - cexEntry.timestamp < 600) by
      simp [cexEntry]
      norm_num)]
  exact (C1_stale_fallback_policy.1 (some "k") 600 cexCache 1000 0 0
    (.error "down") (.upstream "down") hmiss rfl).1 cexEntry hfind

/-! ## Claim C3: what mutates the stored cache entries -/

/-- The cache left behind by a `get_weather` call: unchanged, or a whole-entry
store at the call's key, or the flag rewrite of the fallback branch. -/
theorem get_weather_cache_shape (apiKey : Option String) (ttl : ℚ) (c : Cache)
    (now lat lon : ℚ) (net : Except String CWInput) :
    (get_weather apiKey ttl c now lat lon net).2 = c ∨
    (∃ p, (get_weather apiKey ttl c now lat lon net).2 =
      set_cache c now (get_cache_key lat lon "current") p) ∨
    (∃ entry, assocFind c (get_cache_key lat lon "current") = some entry ∧
      (get_weather apiKey ttl c now lat lon net).2 =
        assocInsert c (get_cache_key lat lon "current")
          { data := entry.data.setStale, timestamp := entry.timestamp }) := by
  unfold get_weather
  cases hl : get_from_cache c ttl now (get_cache_key lat lon "current") with
  | some d => exact Or.inl rfl
  | none =>
    cases ha : attemptCurrent apiKey now net with
    | ok p => exact Or.inr (Or.inl ⟨p, rfl⟩)
    | error e =>
      cases hf : assocFind c (get_cache_key lat lon "current") with
      | some entry => exact Or.inr (Or.inr ⟨entry, rfl, rfl⟩)
      | none => exact Or.inl rfl

/-- The cache left behind by a `get_forecast` call (same three shapes). -/
theorem get_forecast_cache_shape (apiKey : Option String) (ttl : ℚ)
    (c : Cache) (now lat lon : ℚ) (days : ℤ)
    (net : Except String RawForecast) :
    (get_forecast apiKey ttl c now lat lon days net).2 = c ∨
    (∃ p, (get_forecast apiKey ttl c now lat lon days net).2 =
      set_cache c now (get_cache_key lat lon ("forecast_" ++ toString days))
        p) ∨
    (∃ entry, assocFind c
        (get_cache_key lat lon ("forecast_" ++ toString days)) =
        some entry ∧
      (get_forecast apiKey ttl c now lat lon days net).2 =
        assocInsert c (get_cache_key lat lon ("forecast_" ++ toString days))
          { data := entry.data.setStale, timestamp := entry.timestamp }) := by
  unfold get_forecast
  by_cases hv : days < 1 ∨ 5 < days
  · rw [if_pos hv]
    exact Or.inl rfl
  · rw [if_neg hv]
    cases hl : get_from_cache c ttl now
        (get_cache_key lat lon ("forecast_" ++ toString days)) with
    | some d => exact Or.inl rfl
    | none =>
      cases ha : attemptForecast apiKey days now net with
      | ok p => exact Or.inr (Or.inl ⟨p, rfl⟩)
      | error e =>
        cases hf : assocFind c
            (get_cache_key lat lon ("forecast_" ++ toString days)) with
        | some entry => exact Or.inr (Or.inr ⟨entry, rfl, rfl⟩)
        | none => exact Or.inl rfl

/-- C3 counterexample: the stale-fallback read does NOT leave the stored
payload unchanged — the flag writes go through the alias into the cache, so
after the fallback the stored payload differs from the one stored before the
call.  (The claim asserts the stored payload is modified only by the store
operation.) -/
theorem C3_counterexample :
    (assocFind (get_weather (some "k") 600 cexCache 1000 0 0
        (.error "down")).2 (get_cache_key 0 0 "current")).map
        CacheEntry.data ≠
      (assocFind cexCache (get_cache_key 0 0 "current")).map
        CacheEntry.data := by
  have hfind : assocFind cexCache (get_cache_key 0 0 "current") =
      some cexEntry := by
    simp [cexCache, assocFind]
  have hmiss : get_from_cache cexCache 600 1000 (get_cache_key 0 0 "current") =
      none := by
    rw [get_from_cache_eq_some _ _ _ _ _ hfind]
    rw [if_neg (show ¬ ((1000 : ℚ) - cexEntry.timestamp < 600) by
      simp [cexEntry]
      norm_num)]
  have hmain : get_weather (some "k") 600 cexCache 1000 0 0 (.error "down") =
      (.ok cexEntry.data.setStale,
       assocInsert cexCache (get_cache_key 0 0 "current")
         { data := cexEntry.data.setStale,
           timestamp := cexEntry.timestamp }) := by
    unfold get_weather
    rw [hmiss]
    rw [show attemptCurrent (some "k") 1000 (.error "down") =
      .error (.upstream "down") from rfl]
    rw [hfind]
  rw [hmain]
  rw [show (assocInsert cexCache (get_cache_key 0 0 "current")
      { data := cexEntry.data.setStale,
        timestamp := cexEntry.timestamp } : Cache) =
    (get_weather (some "k") 600 cexCache 1000 0 0 (.error "down")).2 from
      by rw [hmain]]
  rw [hmain]
  rw [assocFind_insert_self, hfind]
  simp [cexEntry, basePayload, Payload.setStale]

/-- C3 amended: the stored entry is overwritten whole by the store operation;
the TTL lookup (hit or miss) leaves the cache unchanged; the stale-fallback
read rewrites the stored payload's `cached`/`stale` flags in place, keeping
the entry's timestamp and every other key's entry; and no operation ever
deletes an entry. -/
theorem C3_frame_amended :
    (∀ (c : Cache) (now : ℚ) (key k : String) (d : Payload),
      assocFind (set_cache c now key d) k =
        if key = k then some { data := d, timestamp := now }
        else assocFind c k) ∧
    (∀ (apiKey : Option String) (ttl : ℚ) (c : Cache) (now lat lon : ℚ)
        (net : Except String CWInput) (d : Payload),
      get_from_cache c ttl now (get_cache_key lat lon "current") = some d →
        (get_weather apiKey ttl c now lat lon net).2 = c) ∧
    (∀ (apiKey : Option String) (ttl : ℚ) (c : Cache) (now lat lon : ℚ)
        (net : Except String CWInput) (e : WErr) (entry : CacheEntry),
      get_from_cache c ttl now (get_cache_key lat lon "current") = none →
      attemptCurrent apiKey now net = .error e →
      assocFind c (get_cache_key lat lon "current") = some entry →
        (get_weather apiKey ttl c now lat lon net).2 =
          assocInsert c (get_cache_key lat lon "current")
            { data := entry.data.setStale,
              timestamp := entry.timestamp }) ∧
    (∀ (apiKey : Option String) (ttl : ℚ) (c : Cache) (now lat lon : ℚ)
        (net : Except String CWInput) (k : String),
      (assocFind c k).isSome = true →
        (assocFind (get_weather apiKey ttl c now lat lon net).2 k).isSome =
          true) ∧
    (∀ (apiKey : Option String) (ttl : ℚ) (c : Cache) (now lat lon : ℚ)
        (days : ℤ) (net : Except String RawForecast) (k : String),
      (assocFind c k).isSome = true →
        (assocFind (get_forecast apiKey ttl c now lat lon days net).2
          k).isSome = true) := by
  refine ⟨?_, ?_, ?_, ?_, ?_⟩
  · intro c now key k d
    unfold set_cache
    exact assocFind_insert c key k _
  · intro apiKey ttl c now lat lon net d hhit
    unfold get_weather
    rw [hhit]
  · intro apiKey ttl c now lat lon net e entry hmiss hatt hfind
    unfold get_weather
    rw [hmiss, hatt, hfind]
  · intro apiKey ttl c now lat lon net k hk
    rcases get_weather_cache_shape apiKey ttl c now lat lon net with
      h | ⟨p, h⟩ | ⟨entry, hfind, h⟩
    · rw [h]; exact hk
    · rw [h]
      unfold set_cache
      rw [assocFind_insert]
      split
      · rfl
      · exact hk
    · rw [h, assocFind_insert]
      split
      · rfl
      · exact hk
  · intro apiKey ttl c now lat lon days net k hk
    rcases get_forecast_cache_shape apiKey ttl c now lat lon days net with
      h | ⟨p, h⟩ | ⟨entry, hfind, h⟩
    · rw [h]; exact hk
    · rw [h]
      unfold set_cache
      rw [assocFind_insert]
      split
      · rfl
      · exact hk
    · rw [h, assocFind_insert]
      split
      · rfl
      · exact hk

/-- Witness for the amended C3 at the concrete expired entry: the fallback
rewrites the stored flags but keeps the timestamp. -/
theorem C3_frame_amended_witness :
    (get_weather (some "k") 600 cexCache 1000 0 0 (.error "down")).2 =
      assocInsert cexCache (get_cache_key 0 0 "current")
        { data := cexEntry.data.setStale,
          timestamp := cexEntry.timestamp } := by
  have hfind : assocFind cexCache (get_cache_key 0 0 "current") =
      some cexEntry := by
    simp [cexCache, assocFind]
  have hmiss : get_from_cache cexCache 600 1000 (get_cache_key 0 0 "current") =
      none := by
    rw [get_from_cache_eq_some _ _ _ _ _ hfind]
    rw [if_neg (show ¬ ((1000 : ℚ) - cexEntry.timestamp < 600) by
      simp [cexEntry]
      norm_num)]
  exact C3_frame_amended.2.2.1 (some "k") 600 cexCache 1000 0 0
    (.error "down") (.upstream "down") cexEntry hmiss rfl hfind

/-! ## Grouping lemmas for normalize_forecast

The grouping loop builds an insertion-ordered dict from dates to per-day
lists.  We characterize it through `dayFind` (dict lookup), `dayFilter` (the
samples of one date, in order) and `firstOccs` (the distinct dates in order of
first occurrence). -/

/-- Dict lookup on the grouping accumulator. -/
def dayFind : List (ℤ × DayData) → ℤ → Option DayData
  | [], _ => none
  | (d, dd) :: rest, date => if d = date then some dd else dayFind rest date

/-- The samples of one calendar date, in list order. -/
def dayFilter : List ForecastItem → ℤ → List ForecastItem
  | [], _ => []
  | it :: rest, date =>
    if epochDate it.dt = date then it :: dayFilter rest date
    else dayFilter rest date

/-- The description texts contributed by a list of samples (one per sample
with a non-empty "weather" list). -/
def descsOf : List ForecastItem → List String
  | [] => []
  | it :: rest =>
    match itemDesc it with
    | some s => s :: descsOf rest
    | none => descsOf rest

/-- The date of every sample, in order. -/
def datesOf : List ForecastItem → List ℤ
  | [] => []
  | it :: rest => epochDate it.dt :: datesOf rest

/-- The distinct values of a list in order of first occurrence. -/
def firstOccs (dates : List ℤ) : List ℤ :=
  dates.foldl (fun acc d => if d ∈ acc then acc else acc ++ [d]) []

/-- One-step unfolding of `dayFilter` on a cons cell. -/
theorem dayFilter_cons (it : ForecastItem) (rest : List ForecastItem)
    (date : ℤ) :
    dayFilter (it :: rest) date =
      if epochDate it.dt = date then it :: dayFilter rest date
      else dayFilter rest date := rfl

/-- One-step unfolding of `descsOf` when the sample contributes a text. -/
theorem descsOf_cons_some (it : ForecastItem) (rest : List ForecastItem)
    (s : String) (h : itemDesc it = some s) :
    descsOf (it :: rest) = s :: descsOf rest := by
  show (match itemDesc it with
    | some t => t :: descsOf rest
    | none => descsOf rest) = s :: descsOf rest
  rw [h]

/-- One-step unfolding of `descsOf` when the sample contributes no text. -/
theorem descsOf_cons_none (it : ForecastItem) (rest : List ForecastItem)
    (h : itemDesc it = none) :
    descsOf (it :: rest) = descsOf rest := by
  show (match itemDesc it with
    | some t => t :: descsOf rest
    | none => descsOf rest) = descsOf rest
  rw [h]

/-- Lookup after one grouping step. -/
theorem dayFind_insertSample (acc : List (ℤ × DayData)) (it : ForecastItem)
    (date : ℤ) :
    dayFind (insertSample acc it) date =
      if epochDate it.dt = date
      then some (addToDay ((dayFind acc date).getD emptyDay) it)
      else dayFind acc date := by
  induction acc with
  | nil =>
    by_cases h : epochDate it.dt = date <;> simp [insertSample, dayFind, h]
  | cons hd rest ih =>
    obtain ⟨k, dd⟩ := hd
    by_cases h1 : k = epochDate it.dt
    · by_cases h2 : k = date
      · have he : epochDate it.dt = date := h1 ▸ h2
        simp [insertSample, dayFind, h1, h2, he]
      · have he : ¬ epochDate it.dt = date := fun h => h2 (h1.trans h)
        simp [insertSample, dayFind, h1, h2, he]
    · by_cases h2 : k = date
      · have he : ¬ epochDate it.dt = date := fun h =>
          h1 (h2.trans h.symm)
        have he2 : ¬ date = epochDate it.dt := fun h => he h.symm
        simp [insertSample, dayFind, h1, h2, he, he2]
      · simp [insertSample, dayFind, h1, h2, ih]

/-- Lookup through the whole grouping fold: the date's bucket is the fold of
that date's samples over the initial bucket (if any). -/
theorem dayFind_foldl (items : List ForecastItem)
    (acc : List (ℤ × DayData)) (date : ℤ) :
    dayFind (items.foldl insertSample acc) date =
      (dayFilter items date).foldl
        (fun o it => some (addToDay (o.getD emptyDay) it))
        (dayFind acc date) := by
  induction items generalizing acc with
  | nil => rfl
  | cons it rest ih =>
    show dayFind (rest.foldl insertSample (insertSample acc it)) date = _
    rw [ih (insertSample acc it)]
    rw [dayFind_insertSample]
    rw [dayFilter_cons]
    by_cases h : epochDate it.dt = date
    · rw [if_pos h, if_pos h]
      rfl
    · rw [if_neg h, if_neg h]

/-- Folding the bucket-extension function from a present bucket. -/
theorem foldl_someAdd (l : List ForecastItem) (dd : DayData) :
    l.foldl (fun o it => some (addToDay (o.getD emptyDay) it)) (some dd) =
      some (l.foldl addToDay dd) := by
  induction l generalizing dd with
  | nil => rfl
  | cons it rest ih => exact ih (addToDay dd it)

/-- The grouping dict's bucket for a date, via the date's sample list. -/
theorem dayFind_groupByDay (items : List ForecastItem) (date : ℤ) :
    dayFind (groupByDay items) date =
      match dayFilter items date with
      | [] => none
      | it :: rest => some (rest.foldl addToDay (addToDay emptyDay it)) := by
  unfold groupByDay
  rw [dayFind_foldl items [] date]
  show (dayFilter items date).foldl _ none = _
  cases h : dayFilter items date with
  | nil => rfl
  | cons it rest =>
    show (rest.foldl _ (some (addToDay emptyDay it))) = _
    rw [foldl_someAdd]

/-- Field view of folding `addToDay`: each field is an append of the
per-sample projections. -/
theorem foldl_addToDay_fields (l : List ForecastItem) (dd : DayData) :
    l.foldl addToDay dd =
      { temps := dd.temps ++ l.map (fun it => it.main.temp)
        humidity := dd.humidity ++ l.map (fun it => it.main.humidity)
        rainfall := dd.rainfall ++ l.map itemRain
        descriptions := dd.descriptions ++ descsOf l } := by
  induction l generalizing dd with
  | nil => simp [descsOf]
  | cons it rest ih =>
    show rest.foldl addToDay (addToDay dd it) = _
    rw [ih (addToDay dd it)]
    cases h : itemDesc it with
    | some s => rw [descsOf_cons_some it rest s h]; simp [addToDay, h]
    | none => rw [descsOf_cons_none it rest h]; simp [addToDay, h]

/-- The bucket of a date with at least one sample is exactly the projections
of that date's sample list. -/
theorem dayFind_groupByDay_fields (items : List ForecastItem) (date : ℤ)
    (h : dayFilter items date ≠ []) :
    dayFind (groupByDay items) date =
      some { temps := (dayFilter items date).map (fun it => it.main.temp)
             humidity :=
               (dayFilter items date).map (fun it => it.main.humidity)
             rainfall := (dayFilter items date).map itemRain
             descriptions := descsOf (dayFilter items date) } := by
  rw [dayFind_groupByDay]
  cases hd : dayFilter items date with
  | nil => exact absurd hd h
  | cons it rest =>
    show some (rest.foldl addToDay (addToDay emptyDay it)) = _
    rw [foldl_addToDay_fields]
    cases hdesc : itemDesc it with
    | some s =>
      rw [descsOf_cons_some it rest s hdesc]
      simp [addToDay, emptyDay, hdesc]
    | none =>
      rw [descsOf_cons_none it rest hdesc]
      simp [addToDay, emptyDay, hdesc]

/-- Keys after one grouping step: existing date keys are kept in place, a new
date is appended. -/
theorem keys_insertSample (acc : List (ℤ × DayData)) (it : ForecastItem) :
    (insertSample acc it).map Prod.fst =
      if epochDate it.dt ∈ acc.map Prod.fst then acc.map Prod.fst
      else acc.map Prod.fst ++ [epochDate it.dt] := by
  induction acc with
  | nil => simp [insertSample]
  | cons hd rest ih =>
    obtain ⟨d, dd⟩ := hd
    by_cases h1 : d = epochDate it.dt
    · subst h1
      simp [insertSample]
    · have h1' : ¬ epochDate it.dt = d := fun h => h1 h.symm
      by_cases h2 : epochDate it.dt ∈ rest.map Prod.fst
      · simp [insertSample, h1, h1', h2, ih]
      · simp [insertSample, h1, h1', h2, ih]

/-- The keys of the grouping dict are the distinct sample dates in order of
first occurrence. -/
theorem keys_groupByDay (items : List ForecastItem) :
    (groupByDay items).map Prod.fst = firstOccs (datesOf items) := by
  suffices h : ∀ (acc : List (ℤ × DayData)),
      (items.foldl insertSample acc).map Prod.fst =
        (datesOf items).foldl
          (fun a d => if d ∈ a then a else a ++ [d]) (acc.map Prod.fst) by
    exact h []
  induction items with
  | nil => intro acc; rfl
  | cons it rest ih =>
    intro acc
    show (rest.foldl insertSample (insertSample acc it)).map Prod.fst = _
    rw [ih (insertSample acc it), keys_insertSample]
    rfl

/-- The keys of the grouping dict are pairwise distinct. -/
theorem nodup_keys_groupByDay (items : List ForecastItem) :
    ((groupByDay items).map Prod.fst).Nodup := by
  rw [keys_groupByDay]
  suffices h : ∀ (ds : List ℤ) (acc : List ℤ), acc.Nodup →
      (ds.foldl (fun a d => if d ∈ a then a else a ++ [d]) acc).Nodup by
    exact h (datesOf items) [] List.nodup_nil
  intro ds
  induction ds with
  | nil => intro acc h; exact h
  | cons d rest ih =>
    intro acc hacc
    show (rest.foldl _ (if d ∈ acc then acc else acc ++ [d])).Nodup
    by_cases hd : d ∈ acc
    · rw [if_pos hd]
      exact ih acc hacc
    · rw [if_neg hd]
      refine ih _ ?_
      rw [List.nodup_append]
      exact ⟨hacc, List.nodup_singleton d, by
        intro a ha hb
        rw [List.mem_singleton] at hb
        exact hd (hb ▸ ha)⟩

/-- In a dict with distinct keys, membership determines the lookup. -/
theorem dayFind_eq_of_mem (l : List (ℤ × DayData))
    (hnd : (l.map Prod.fst).Nodup) (d : ℤ) (dd : DayData)
    (hmem : (d, dd) ∈ l) : dayFind l d = some dd := by
  induction l with
  | nil => cases hmem
  | cons hd rest ih =>
    obtain ⟨k, v⟩ := hd
    rw [List.map_cons, List.nodup_cons] at hnd
    rcases List.mem_cons.mp hmem with heq | hmem'
    · injection heq with hd1 hd2
      subst hd1
      subst hd2
      simp [dayFind]
    · by_cases hk : k = d
      · exfalso
        subst hk
        have hk2 : k ∈ rest.map Prod.fst :=
          List.mem_map.mpr ⟨(k, dd), hmem', rfl⟩
        exact hnd.1 hk2
      · show (if k = d then some v else dayFind rest d) = some dd
        rw [if_neg hk]
        exact ih hnd.2 hmem'

/-! ## Claim C4: truncation, bucketing and the day-count bound -/

/-- C4: for days in [1,5], `normalize_forecast` depends only on the first
`days * 8` samples, the dates of the returned days are the first `days`
distinct calendar dates of those samples in order of first occurrence, and
the forecast length is at most `days` and at most 5. -/
theorem C4_forecast_grouping :
    ∀ (data : RawForecast) (days : ℤ) (cached : Bool) (now : ℚ),
      1 ≤ days → days ≤ 5 →
      normalize_forecast data days cached now =
        normalize_forecast { list := data.list.take (days * 8).toNat }
          days cached now ∧
      (normalize_forecast data days cached now).forecast.map
          ForecastDay.date =
        (firstOccs (datesOf (data.list.take (days * 8).toNat))).take
          days.toNat ∧
      (normalize_forecast data days cached now).forecast.length ≤
        days.toNat ∧
      (normalize_forecast data days cached now).forecast.length ≤ 5 := by
  intro data days cached now h1 h5
  have hfun : ForecastDay.date ∘ summarize = Prod.fst := by
    funext p
    obtain ⟨d, dd⟩ := p
    rfl
  refine ⟨?_, ?_, ?_, ?_⟩
  · unfold normalize_forecast
    simp [List.take_take]
  · show ((((groupByDay (data.list.take (days * 8).toNat)).take
      days.toNat).map summarize).map ForecastDay.date) = _
    rw [List.map_map, hfun, List.map_take, keys_groupByDay]
  · show (((groupByDay (data.list.take (days * 8).toNat)).take
      days.toNat).map summarize).length ≤ days.toNat
    rw [List.length_map, List.length_take]
    omega
  · show (((groupByDay (data.list.take (days * 8).toNat)).take
      days.toNat).map summarize).length ≤ 5
    rw [List.length_map, List.length_take]
    omega

/-- A forecast sample on day 0 (all-default payload values). -/
def exItemA : ForecastItem :=
  { dt := 0, main := { temp := 10, humidity := 50 }, rain := none,
    weather := [] }

/-- A forecast sample on day 1. -/
def exItemB : ForecastItem :=
  { dt := 86400, main := { temp := 20, humidity := 70 },
    rain := some { threeH := some 2 },
    weather := [{ description := "rain" }] }

/-- A concrete two-sample forecast response spanning two days. -/
def exFc2 : RawForecast := { list := [exItemA, exItemB] }

/-! ## Python min/max/sum over the bucket lists -/

/-- A min-fold is bounded by its initial value. -/
theorem foldl_min_le_init (xs : List ℚ) (x : ℚ) : xs.foldl min x ≤ x := by
  induction xs generalizing x with
  | nil => exact le_refl x
  | cons a xs ih => exact le_trans (ih (min x a)) (min_le_left x a)

/-- A min-fold is bounded by every list element. -/
theorem foldl_min_le_of_mem (xs : List ℚ) (x y : ℚ) (h : y ∈ xs) :
    xs.foldl min x ≤ y := by
  induction xs generalizing x with
  | nil => cases h
  | cons a xs ih =>
    rcases List.mem_cons.mp h with rfl | h'
    · exact le_trans (foldl_min_le_init xs (min x y)) (min_le_right x y)
    · exact ih (min x a) h'

/-- A min-fold returns its initial value or a list element. -/
theorem foldl_min_choice (xs : List ℚ) (x : ℚ) :
    xs.foldl min x = x ∨ xs.foldl min x ∈ xs := by
  induction xs generalizing x with
  | nil => exact Or.inl rfl
  | cons a xs ih =>
    show xs.foldl min (min x a) = x ∨ xs.foldl min (min x a) ∈ a :: xs
    rcases ih (min x a) with h | h
    · rcases min_choice x a with hm | hm
      · exact Or.inl (h.trans hm)
      · refine Or.inr ?_
        rw [h, hm]
        exact List.mem_cons_self a xs
    · exact Or.inr (List.mem_cons_of_mem a h)

/-- A max-fold dominates its initial value. -/
theorem le_foldl_max_init (xs : List ℚ) (x : ℚ) : x ≤ xs.foldl max x := by
  induction xs generalizing x with
  | nil => exact le_refl x
  | cons a xs ih => exact le_trans (le_max_left x a) (ih (max x a))

/-- A max-fold dominates every list element. -/
theorem le_foldl_max_of_mem (xs : List ℚ) (x y : ℚ) (h : y ∈ xs) :
    y ≤ xs.foldl max x := by
  induction xs generalizing x with
  | nil => cases h
  | cons a xs ih =>
    rcases List.mem_cons.mp h with rfl | h'
    · exact le_trans (le_max_right x y) (le_foldl_max_init xs (max x y))
    · exact ih (max x a) h'

/-- A max-fold returns its initial value or a list element. -/
theorem foldl_max_choice (xs : List ℚ) (x : ℚ) :
    xs.foldl max x = x ∨ xs.foldl max x ∈ xs := by
  induction xs generalizing x with
  | nil => exact Or.inl rfl
  | cons a xs ih =>
    show xs.foldl max (max x a) = x ∨ xs.foldl max (max x a) ∈ a :: xs
    rcases ih (max x a) with h | h
    · rcases max_choice x a with hm | hm
      · exact Or.inl (h.trans hm)
      · refine Or.inr ?_
        rw [h, hm]
        exact List.mem_cons_self a xs
    · exact Or.inr (List.mem_cons_of_mem a h)

/-- `min` of a non-empty list is bounded by every member. -/
theorem listMin_le_of_mem (x y : ℚ) (xs : List ℚ) (h : y ∈ x :: xs) :
    listMin (x :: xs) ≤ y := by
  rcases List.mem_cons.mp h with rfl | h'
  · exact foldl_min_le_init xs y
  · exact foldl_min_le_of_mem xs x y h'

/-- `min` of a non-empty list is a member. -/
theorem listMin_mem_cons (x : ℚ) (xs : List ℚ) :
    listMin (x :: xs) ∈ x :: xs := by
  rcases foldl_min_choice xs x with h | h
  · rw [show listMin (x :: xs) = xs.foldl min x from rfl, h]
    exact List.mem_cons_self x xs
  · exact List.mem_cons_of_mem x h

/-- `max` of a non-empty list dominates every member. -/
theorem le_listMax_of_mem (x y : ℚ) (xs : List ℚ) (h : y ∈ x :: xs) :
    y ≤ listMax (x :: xs) := by
  rcases List.mem_cons.mp h with rfl | h'
  · exact le_foldl_max_init xs y
  · exact le_foldl_max_of_mem xs x y h'

/-- `max` of a non-empty list is a member. -/
theorem listMax_mem_cons (x : ℚ) (xs : List ℚ) :
    listMax (x :: xs) ∈ x :: xs := by
  rcases foldl_max_choice xs x with h | h
  · rw [show listMax (x :: xs) = xs.foldl max x from rfl, h]
    exact List.mem_cons_self x xs
  · exact List.mem_cons_of_mem x h

/-- An add-fold from a non-negative start over non-negatives is
non-negative. -/
theorem foldl_add_nonneg (l : List ℚ) (acc : ℚ) (hacc : 0 ≤ acc)
    (h : ∀ q ∈ l, 0 ≤ q) : 0 ≤ l.foldl (fun a b => a + b) acc := by
  induction l generalizing acc with
  | nil => exact hacc
  | cons a rest ih =>
    exact ih (acc + a)
      (add_nonneg hacc (h a (List.mem_cons_self a rest)))
      (fun q hq => h q (List.mem_cons_of_mem a hq))

/-- The sum of a list of non-negative rationals is non-negative. -/
theorem qsum_nonneg (l : List ℚ) (h : ∀ q ∈ l, 0 ≤ q) : 0 ≤ qsum l :=
  foldl_add_nonneg l 0 le_rfl h

/-- Members of a date's sample list are samples of the original list. -/
theorem mem_of_mem_dayFilter (items : List ForecastItem) (date : ℤ)
    (it : ForecastItem) (h : it ∈ dayFilter items date) : it ∈ items := by
  induction items with
  | nil => cases h
  | cons a rest ih =>
    rw [dayFilter_cons] at h
    by_cases hc : epochDate a.dt = date
    · rw [if_pos hc] at h
      rcases List.mem_cons.mp h with heq | h'
      · rw [heq]
        exact List.mem_cons_self a rest
      · exact List.mem_cons_of_mem a (ih h')
    · rw [if_neg hc] at h
      exact List.mem_cons_of_mem a (ih h)

/-- Every returned forecast day is the summary of its date's (non-empty)
sample list among the first `days * 8` samples. -/
theorem forecast_day_fields (data : RawForecast) (days : ℤ) (cached : Bool)
    (now : ℚ) (fd : ForecastDay)
    (hmem : fd ∈ (normalize_forecast data days cached now).forecast) :
    dayFilter (data.list.take (days * 8).toNat) fd.date ≠ [] ∧
    fd.temp_min = listMin ((dayFilter (data.list.take (days * 8).toNat)
      fd.date).map (fun it => it.main.temp)) ∧
    fd.temp_max = listMax ((dayFilter (data.list.take (days * 8).toNat)
      fd.date).map (fun it => it.main.temp)) ∧
    fd.humidity = pyTrunc (qsum ((dayFilter (data.list.take
      (days * 8).toNat) fd.date).map (fun it => it.main.humidity)) /
      (((dayFilter (data.list.take (days * 8).toNat) fd.date).map
        (fun it => it.main.humidity)).length : ℚ)) ∧
    fd.rainfall = qsum ((dayFilter (data.list.take (days * 8).toNat)
      fd.date).map itemRain) ∧
    fd.description = (descsOf (dayFilter (data.list.take
      (days * 8).toNat) fd.date)).headD "unknown" := by
  rw [show (normalize_forecast data days cached now).forecast =
    ((groupByDay (data.list.take (days * 8).toNat)).take days.toNat).map
      summarize from rfl] at hmem
  obtain ⟨p, hp, hfd⟩ := List.mem_map.mp hmem
  obtain ⟨d, dd⟩ := p
  have hpg : (d, dd) ∈ groupByDay (data.list.take (days * 8).toNat) :=
    List.take_subset _ _ hp
  have hfind := dayFind_eq_of_mem _ (nodup_keys_groupByDay _) d dd hpg
  have hdate : fd.date = d := by
    rw [← hfd]
    rfl
  have hne : dayFilter (data.list.take (days * 8).toNat) d ≠ [] := by
    intro hnil
    rw [dayFind_groupByDay, hnil] at hfind
    cases hfind
  have hbucket := dayFind_groupByDay_fields
    (data.list.take (days * 8).toNat) d hne
  rw [hfind] at hbucket
  have hdd := Option.some.inj hbucket
  subst hdd
  rw [hdate]
  refine ⟨hne, ?_, ?_, ?_, ?_, ?_⟩
  all_goals rw [← hfd]
  all_goals rfl

/-- Witness for C4 at a concrete two-day response with days = 2. -/
theorem C4_forecast_grouping_witness :
    (normalize_forecast exFc2 2 false 0).forecast.map ForecastDay.date =
      (firstOccs (datesOf (exFc2.list.take ((2 : ℤ) * 8).toNat))).take
        (2 : ℤ).toNat ∧
    (normalize_forecast exFc2 2 false 0).forecast.length ≤ 5 :=
  ⟨(C4_forecast_grouping exFc2 2 false 0 (by norm_num) (by norm_num)).2.1,
   (C4_forecast_grouping exFc2 2 false 0 (by norm_num)
     (by norm_num)).2.2.2⟩

/-! ## Claim C5: per-day aggregation -/

/-- C5: for every returned forecast day (its date's sample list among the
first `days * 8` samples being non-empty), `temp_min`/`temp_max` are the
minimum and maximum of the day's temperatures (so `temp_min ≤ temp_max`),
`humidity` is the truncating integer average of the day's humidity samples,
`rainfall` is the sum of the day's 3-hour precipitation values (0 for a
sample without one, per `itemRain`), and `description` is the first
weather-condition text encountered for the day — the text of the first
sample carrying a non-empty condition list — or "unknown" when no sample of
the day carries a condition entry. -/
theorem C5_daily_aggregation :
    ∀ (data : RawForecast) (days : ℤ) (cached : Bool) (now : ℚ)
      (fd : ForecastDay),
      fd ∈ (normalize_forecast data days cached now).forecast →
      dayFilter (data.list.take (days * 8).toNat) fd.date ≠ [] ∧
      fd.temp_min ∈ (dayFilter (data.list.take (days * 8).toNat)
        fd.date).map (fun it => it.main.temp) ∧
      fd.temp_max ∈ (dayFilter (data.list.take (days * 8).toNat)
        fd.date).map (fun it => it.main.temp) ∧
      (∀ it ∈ dayFilter (data.list.take (days * 8).toNat) fd.date,
        fd.temp_min ≤ it.main.temp ∧ it.main.temp ≤ fd.temp_max) ∧
      fd.temp_min ≤ fd.temp_max ∧
      fd.humidity = pyTrunc (qsum ((dayFilter (data.list.take
        (days * 8).toNat) fd.date).map (fun it => it.main.humidity)) /
        (((dayFilter (data.list.take (days * 8).toNat) fd.date).map
          (fun it => it.main.humidity)).length : ℚ)) ∧
      fd.rainfall = qsum ((dayFilter (data.list.take (days * 8).toNat)
        fd.date).map itemRain) ∧
      fd.description = (descsOf (dayFilter (data.list.take
        (days * 8).toNat) fd.date)).headD "unknown" := by
  intro data days cached now fd hmem
  obtain ⟨hne, hmin, hmax, hhum, hrain, hdesc⟩ :=
    forecast_day_fields data days cached now fd hmem
  refine ⟨hne, ?_, ?_, ?_, ?_, hhum, hrain, hdesc⟩
  · cases hfil : dayFilter (data.list.take (days * 8).toNat) fd.date with
    | nil => exact absurd hfil hne
    | cons a l =>
      rw [hfil, List.map_cons] at hmin
      rw [List.map_cons, hmin]
      exact listMin_mem_cons _ _
  · cases hfil : dayFilter (data.list.take (days * 8).toNat) fd.date with
    | nil => exact absurd hfil hne
    | cons a l =>
      rw [hfil, List.map_cons] at hmax
      rw [List.map_cons, hmax]
      exact listMax_mem_cons _ _
  · intro it hit
    cases hfil : dayFilter (data.list.take (days * 8).toNat) fd.date with
    | nil =>
      rw [hfil] at hit
      cases hit
    | cons a l =>
      rw [hfil] at hit
      rw [hfil, List.map_cons] at hmin hmax
      have htemp : it.main.temp ∈
          a.main.temp :: l.map (fun x => x.main.temp) := by
        rcases List.mem_cons.mp hit with heq | h'
        · rw [heq]
          exact List.mem_cons_self _ _
        · exact List.mem_cons_of_mem _ (List.mem_map.mpr ⟨it, h', rfl⟩)
      constructor
      · rw [hmin]
        exact listMin_le_of_mem _ _ _ htemp
      · rw [hmax]
        exact le_listMax_of_mem _ _ _ htemp
  · cases hfil : dayFilter (data.list.take (days * 8).toNat) fd.date with
    | nil => exact absurd hfil hne
    | cons a l =>
      rw [hfil, List.map_cons] at hmin hmax
      rw [hmin, hmax]
      exact le_listMax_of_mem _ _ _ (listMin_mem_cons _ _)

/-- The day-0 bucket produced for `exFc2` with days = 1. -/
def ddAex : DayData :=
  { temps := [10], humidity := [50], rainfall := [0], descriptions := [] }

/-- Witness for C5 at the concrete one-day instance. -/
theorem C5_daily_aggregation_witness :
    summarize (0, ddAex) ∈ (normalize_forecast exFc2 1 false 0).forecast ∧
    (summarize (0, ddAex)).temp_min ≤ (summarize (0, ddAex)).temp_max ∧
    (summarize (0, ddAex)).description = "unknown" := by
  have hm : summarize (0, ddAex) ∈
      (normalize_forecast exFc2 1 false 0).forecast := by
    rw [show (normalize_forecast exFc2 1 false 0).forecast =
      [summarize (0, ddAex)] from rfl]
    exact List.mem_singleton_self _
  have h := C5_daily_aggregation exFc2 1 false 0 (summarize (0, ddAex)) hm
  exact ⟨hm, h.2.2.2.2.1, h.2.2.2.2.2.2.2.trans rfl⟩

/-! ## Claim C9: non-negativity of rainfall -/

/-- C9 counterexample: the code applies no clamping, so a provider response
carrying a negative 1-hour precipitation value yields a negative normalized
rainfall.  (The claim asserts non-negativity for every provider response.) -/
theorem C9_counterexample :
    (normalize_current_weather (.raw { emptyRaw with
        rain := some { oneH := some (-1), threeH := none } }) false 0).map
      CurrentPayload.rainfall = some (-1) ∧ ((-1 : ℚ) < 0) := by
  constructor
  · rfl
  · norm_num

/-- C9 amended: for every provider response whose precipitation fields are
non-negative, the rainfall of the normalized current-weather payload and of
every returned forecast day is non-negative. -/
theorem C9_rainfall_nonneg_amended :
    (∀ (d : RawCurrent) (cached : Bool) (now : ℚ) (p : CurrentPayload),
      (∀ r, d.rain = some r →
        (∀ q, r.oneH = some q → 0 ≤ q) ∧
        (∀ q, r.threeH = some q → 0 ≤ q)) →
      normalize_current_weather (.raw d) cached now = some p →
      0 ≤ p.rainfall) ∧
    (∀ (data : RawForecast) (days : ℤ) (cached : Bool) (now : ℚ),
      (∀ it ∈ data.list, ∀ r, it.rain = some r →
        ∀ q, r.threeH = some q → 0 ≤ q) →
      ∀ fd ∈ (normalize_forecast data days cached now).forecast,
        0 ≤ fd.rainfall) := by
  constructor
  · intro d cached now p hpos hp
    have hrain : p.rainfall = rawRainfall d := by
      simp only [normalize_current_weather] at hp
      cases hdesc : rawDescription d with
      | none => rw [hdesc] at hp; cases hp
      | some s => rw [hdesc] at hp; cases hp; rfl
    rw [hrain]
    cases hr : d.rain with
    | none => simp [rawRainfall, hr]
    | some r =>
      cases h1 : r.oneH with
      | some q =>
        have hq := (hpos r hr).1 q h1
        simpa [rawRainfall, hr, h1] using hq
      | none =>
        cases h3 : r.threeH with
        | some q =>
          have hq := (hpos r hr).2 q h3
          have hq3 : (0 : ℚ) ≤ q / 3 := div_nonneg hq (by norm_num)
          simpa [rawRainfall, hr, h1, h3] using hq3
        | none => simp [rawRainfall, hr, h1, h3]
  · intro data days cached now hpos fd hmem
    obtain ⟨hne, hmin, hmax, hhum, hrain, hdesc⟩ :=
      forecast_day_fields data days cached now fd hmem
    rw [hrain]
    refine qsum_nonneg _ ?_
    intro q hq
    obtain ⟨it, hit, hq'⟩ := List.mem_map.mp hq
    have hit' : it ∈ data.list :=
      List.take_subset _ _ (mem_of_mem_dayFilter _ _ _ hit)
    rw [← hq']
    cases hr : it.rain with
    | none => simp [itemRain, hr]
    | some r =>
      cases h3 : r.threeH with
      | some q' =>
        have hq3 := hpos it hit' r hr q' h3
        simpa [itemRain, hr, h3] using hq3
      | none => simp [itemRain, hr, h3]

/-- Witness for the amended C9 at the concrete 3h = 3.0 sample. -/
theorem C9_rainfall_nonneg_amended_witness :
    ∃ p, normalize_current_weather (.raw threeHourRaw) false 0 = some p ∧
      0 ≤ p.rainfall := by
  refine ⟨_, rfl, ?_⟩
  refine C9_rainfall_nonneg_amended.1 threeHourRaw false 0 _ ?_ rfl
  intro r hr
  have hr' : ({ oneH := none, threeH := some 3 } : RainData) = r := by
    injection hr
  rw [← hr']
  constructor
  · intro q hq
    cases hq
  · intro q hq
    injection hq with h
    rw [← h]
    norm_num

